import Mathlib

/-
Verification development for the starclass orchestration core
(`starclass/BaseClassifier.py`).  The Python module is shallowly embedded:
dictionaries become association lists that keep insertion order, exceptions
become `Except`, float probabilities become rationals, and the filesystem /
numeric collaborators (light-curve parsing, power spectra, pickled cache
files) become explicit function-valued parameters in an `Env` record.
-/

namespace Starclass

/-- Classification level, `'L1'` or `'L2'` (BaseClassifier.__init__). -/
inductive Level
  | L1
  | L2
deriving DecidableEq

/-- Status indicator of the photometry (BaseClassifier.py lines 30-41). -/
inductive STATUS
  | UNKNOWN
  | STARTED
  | OK
  | ERROR
  | WARNING
  | ABORT
  | SKIPPED
deriving DecidableEq

/-- Stable integer codes of the `STATUS` enum (BaseClassifier.py lines 35-41). -/
def STATUS.code : STATUS → Nat
  | .UNKNOWN => 0
  | .STARTED => 6
  | .OK => 1
  | .ERROR => 2
  | .WARNING => 3
  | .ABORT => 4
  | .SKIPPED => 5

/-- Modelled from the spec: the `StellarClasses` (level L1) enumeration lives in
`starclass/StellarClasses.py`, which is not part of the provided sources.  The
spec fixes six distinguished members used by label resolution (eclipsing,
RR Lyrae/Cepheid, contact/rotational, delta-Scuti/beta-Cephei, gamma-Dor/SPB,
solar-like) and implies the closed set has further members (the "none match"
branch); two further coarse classes stand for those. -/
inductive StellarClasses
  | ECLIPSE
  | RRLYR_CEPHEID
  | CONTACT_ROT
  | DSCT_BCEP
  | GDOR_SPB
  | SOLARLIKE
  | APERIODIC
  | CONSTANT
deriving DecidableEq

/-- Modelled from the spec: the stable string value of each L1 class member
(`lbl.value` in the source); the concrete strings are not in the provided
sources, only that they are distinct stable identifiers. -/
def StellarClasses.value : StellarClasses → String
  | .ECLIPSE => "eclipse"
  | .RRLYR_CEPHEID => "rrlyr-cepheid"
  | .CONTACT_ROT => "contact-rot"
  | .DSCT_BCEP => "dsct-bcep"
  | .GDOR_SPB => "gdor-spb"
  | .SOLARLIKE => "solar-like"
  | .APERIODIC => "aperiodic"
  | .CONSTANT => "constant"

/-- Modelled from the spec: the `StellarClassesLevel2` (level L2) enumeration is
also outside the provided sources; the spec fixes only that it is a second,
distinct closed set (the refined taxonomy). -/
inductive StellarClassesLevel2
  | REFINED_A
  | REFINED_B
  | REFINED_C
deriving DecidableEq

/-- Modelled from the spec: stable string values of the L2 members. -/
def StellarClassesLevel2.value : StellarClassesLevel2 → String
  | .REFINED_A => "refined-a"
  | .REFINED_B => "refined-b"
  | .REFINED_C => "refined-c"

/-- A class key appearing in a classification-result mapping: a member of
either enumeration (the two Python enums are distinct types). -/
inductive ClassKey
  | l1 : StellarClasses → ClassKey
  | l2 : StellarClassesLevel2 → ClassKey
deriving DecidableEq

/-- Stable value of a class key. -/
def ClassKey.value : ClassKey → String
  | .l1 c => c.value
  | .l2 c => c.value

/-- Membership of a class key in the level-selected enum: `self.StellarClasses`
is `StellarClasses` at L1 and `StellarClassesLevel2` at L2 (lines 99-104), and
`key not in self.StellarClasses` tests membership in that enum (line 138). -/
def memberOfLevel : Level → ClassKey → Bool
  | .L1, .l1 _ => true
  | .L1, .l2 _ => false
  | .L2, .l1 _ => false
  | .L2, .l2 _ => true

/-- All members of the base (L1) enumeration in declaration order:
`[lbl.value for lbl in StellarClasses]` iterates the full L1 enum (line 192). -/
def allStellarClasses : List StellarClasses :=
  [.ECLIPSE, .RRLYR_CEPHEID, .CONTACT_ROT, .DSCT_BCEP, .GDOR_SPB, .SOLARLIKE,
   .APERIODIC, .CONSTANT]

/-- `all_classes = [lbl.value for lbl in StellarClasses]` (line 192): the full
class value space of the base taxonomy, independent of the active level. -/
def all_classes : List String := allStellarClasses.map StellarClasses.value

/-- A light curve as produced by one of the two parsing paths; the parsing of
the observation file itself is an external collaborator (numpy / astropy),
so only its identity is tracked. -/
structure LightCurve where
  source : String
  fmt : String
deriving DecidableEq

/-- A power-spectrum object (`powerspectrum(lc)`), external collaborator. -/
structure PowerSpectrum where
  ofLc : LightCurve
deriving DecidableEq

/-- A value stored in a feature bundle (Python dict values). -/
inductive FeatVal
  | num : ℚ → FeatVal
  | int : ℤ → FeatVal
  | str : String → FeatVal
  | lc : LightCurve → FeatVal
  | spec : PowerSpectrum → FeatVal
deriving DecidableEq

/-- A feature bundle: a Python dict from feature name to value, embedded as an
association list that keeps insertion order. -/
abbrev Features := List (String × FeatVal)

/-- Dict lookup `d[k]` (first binding of the key, `none` models `KeyError`). -/
def dictGet (d : Features) (k : String) : Option FeatVal :=
  (d.find? (fun p => p.1 = k)).map (·.2)

/-- Dict assignment `d[k] = v`: overwrite the existing binding in place,
otherwise append at the end (Python dict insertion-order semantics). -/
def dictSet : Features → String → FeatVal → Features
  | [], k, v => [(k, v)]
  | (k', v') :: rest, k, v =>
      if k' = k then (k, v) :: rest else (k', v') :: dictSet rest k v

/-- Dict update `d.update(other)`: assign every binding of `other` in order. -/
def dictUpdate (d other : Features) : Features :=
  other.foldl (fun acc p => dictSet acc p.1 p.2) d

/-- A task handed over by the TaskManager: `priority`, `starid` and the
optional scalar fields inspected on lines 329-333. -/
structure Task where
  priority : ℤ
  starid : ℤ
  tmag : Option ℚ
  variance : Option ℚ
  rms_hour : Option ℚ
  ptp : Option ℚ
  other_classifiers : Option String
deriving DecidableEq

/-- Lines 329-333: attach/overwrite `priority`, `starid` and each optional task
field that is present, in the fixed tuple order. -/
def attachTaskFields (features : Features) (task : Task) : Features :=
  let f := dictSet features "priority" (.int task.priority)
  let f := dictSet f "starid" (.int task.starid)
  let f := match task.tmag with
    | some v => dictSet f "tmag" (.num v)
    | none => f
  let f := match task.variance with
    | some v => dictSet f "variance" (.num v)
    | none => f
  let f := match task.rms_hour with
    | some v => dictSet f "rms_hour" (.num v)
    | none => f
  let f := match task.ptp with
    | some v => dictSet f "ptp" (.num v)
    | none => f
  match task.other_classifiers with
    | some v => dictSet f "other_classifiers" (.str v)
    | none => f

/-- External collaborators of the loader: observation-file parsing (numpy
`loadtxt` / astropy `fits`), the numeric feature extractors, and the pickled
feature-cache contents on disk (`some` means the cache file exists and holds
that bundle). -/
structure Env where
  parseText : String → LightCurve
  parseFits : String → LightCurve
  remove_nans : LightCurve → LightCurve
  powerspectrum : LightCurve → PowerSpectrum
  freqextr : LightCurve → Features
  FliPer : PowerSpectrum → Features
  cache : String → Option Features

/-- `calc_features` (lines 341-367): lightcurve, power spectrum of the
NaN-cleaned lightcurve, extracted frequencies and FliPer features. -/
def calc_features (env : Env) (lightcurve : LightCurve) : Features :=
  let features : Features := []
  let features := dictSet features "lightcurve" (.lc lightcurve)
  let lc := env.remove_nans lightcurve
  let psd := env.powerspectrum lc
  let features := dictSet features "powerspectrum" (.spec psd)
  let features := dictUpdate features (env.freqextr lightcurve)
  dictUpdate features (env.FliPer psd)

/-- A classifier object: its short identity key (line 91-97), active level,
configured feature-cache directory, and the variant-supplied `do_classify`. -/
structure Classifier where
  classifier_key : String
  level : Level
  features_cache : Option String
  do_classify : Features → List (ClassKey × ℚ)

/-- The fixed class-name → short-key map of line 91-97. -/
def classifierKeyMap : List (String × String) :=
  [("BaseClassifier", "base"), ("RFGCClassifier", "rfgc"),
   ("SLOSHClassifier", "slosh"), ("XGBClassifier", "xgb"),
   ("MetaClassifier", "meta")]

/-- Errors raised by `classify` (lines 137-141): an unknown stellar class key,
or a probability outside [0,1]. -/
inductive ClassifyError
  | UnknownClass : ClassKey → ClassifyError
  | InvalidProbability : ℚ → ClassifyError
deriving DecidableEq

/-- The validation loop of `classify` (lines 137-141): for each entry in
iteration order, first the key-membership check, then the range check. -/
def checkRes (lvl : Level) : List (ClassKey × ℚ) → Except ClassifyError Unit
  | [] => .ok ()
  | (key, value) :: rest =>
      if memberOfLevel lvl key = false then .error (.UnknownClass key)
      else if value < 0 ∨ value > 1 then .error (.InvalidProbability value)
      else checkRes lvl rest

/-- `classify` (lines 116-143): run `do_classify`, validate every entry, and
return the mapping unchanged. -/
def classify (c : Classifier) (features : Features) :
    Except ClassifyError (List (ClassKey × ℚ)) :=
  let res := c.do_classify features
  match checkRes c.level res with
  | .ok _ => .ok res
  | .error e => .error e

/-- The error raised by `load_star` on an unrecognized file suffix
(`ValueError("Invalid file format")`, line 312). -/
inductive LoadError
  | InvalidFormat
deriving DecidableEq

/-- Observable side effects of one `load_star` call: whether the feature cache
was consulted, whether `calc_features` ran, and the single cache write (target
file name and written bundle) if one happened. -/
structure LoadEffects where
  cacheLookup : Bool
  calcInvoked : Bool
  cacheWrite : Option (String × Features)
deriving DecidableEq

/-- `os.path.join(features_cache, 'features-' + str(priority) + '.pickle')`
(line 318). -/
def features_file_name (dir : String) (priority : ℤ) : String :=
  dir ++ "/features-" ++ toString priority ++ ".pickle"

/-- Format dispatch by file suffix (lines 263-312): the tabular encodings go
through `np.loadtxt`, the FITS encodings through `astropy.io.fits`; any other
suffix is the `Invalid file format` error (`none`). -/
def loadLightcurve (env : Env) (fname : String) : Option LightCurve :=
  if fname.endsWith ".noisy" || fname.endsWith ".sysnoise"
      || fname.endsWith ".txt" || fname.endsWith ".clean" then
    some (env.parseText fname)
  else if fname.endsWith ".fits" || fname.endsWith ".fits.gz" then
    some (env.parseFits fname)
  else
    none

/-- `load_star` (lines 235-339).  For the meta classifier the lightcurve and
feature computation are skipped entirely; otherwise the file is parsed by
suffix, the feature cache is consulted (`if self.features_cache:` then
`os.path.exists`), recomputation happens when the loaded dict is falsy
(`if not features:`), task fields are attached, and a freshly computed bundle
is written back to the cache when a cache directory is configured. -/
def load_star (env : Env) (c : Classifier) (task : Task) (fname : String) :
    Except LoadError Features × LoadEffects :=
  if c.classifier_key = "meta" then
    (.ok (attachTaskFields [] task), ⟨false, false, none⟩)
  else
    match loadLightcurve env fname with
    | none => (.error .InvalidFormat, ⟨false, false, none⟩)
    | some lightcurve =>
        match c.features_cache with
        | some dir =>
            let features_file := features_file_name dir task.priority
            match env.cache features_file with
            | some cached =>
                if cached = [] then
                  let final := attachTaskFields (calc_features env lightcurve) task
                  (.ok final, ⟨true, true, some (features_file, final)⟩)
                else
                  (.ok (attachTaskFields cached task), ⟨true, false, none⟩)
            | none =>
                let final := attachTaskFields (calc_features env lightcurve) task
                (.ok final, ⟨true, true, some (features_file, final)⟩)
        | none =>
            let final := attachTaskFields (calc_features env lightcurve) task
            (.ok final, ⟨false, true, none⟩)

/-- The training-set collaborator consumed by `test` (an external interface:
`testfraction`, `features_test()`, `labels_test(level)`, `test_idx`, and the
split key used in the artifact name). -/
structure TSet where
  key : String
  testfraction : ℚ
  features_test : List Features
  labels_test : Level → List (List ClassKey)
  test_idx : List ℤ

/-- Python `max(res, key=lambda key: res[key])` over a dict (line 208): scan
the entries in iteration order, replacing the current best only on a strictly
greater value, so ties keep the first-encountered entry; `none` models the
`max() arg is an empty sequence` error. -/
def pyMax : List (ClassKey × ℚ) → Option (ClassKey × ℚ)
  | [] => none
  | p :: rest => some (rest.foldl (fun acc q => if q.2 > acc.2 then q else acc) p)

/-- A value stored in a result record (the dict built on lines 198-205). -/
inductive RecValue
  | feat : FeatVal → RecValue
  | str : String → RecValue
  | status : STATUS → RecValue
  | results : List (ClassKey × ℚ) → RecValue
deriving DecidableEq

/-- A result record handed to `save_func`: a Python dict, embedded as an
association list keeping insertion order. -/
abbrev ResultRecord := List (String × RecValue)

/-- The result record built on lines 198-205: keys in insertion order are
`priority` (copied from the feature bundle), `classifier` (the variant's short
key), `status` (`STATUS.OK`) and `starclass_results` (the validated mapping). -/
def recordOf (c : Classifier) (pri : FeatVal) (res : List (ClassKey × ℚ)) :
    ResultRecord :=
  [("priority", .feat pri), ("classifier", .str c.classifier_key),
   ("status", .status .OK), ("starclass_results", .results res)]

/-- Errors that abort a `test` run: a contract violation from `classify`, a
missing `priority` key in a test feature bundle (`KeyError`), `max()` over an
empty result dict, `lbl[0]` on an empty label tuple (`IndexError`), and the
sklearn consistent-length check. -/
inductive TestError
  | classifyFailed : ClassifyError → TestError
  | priorityAbsent : TestError
  | maxOfEmpty : TestError
  | labelIndex : TestError
  | lengthMismatch : TestError
deriving DecidableEq

/-- The per-star loop of `test` (lines 196-214): for each (features, labels)
pair in lock-step, build the result record, classify, take the argmax value as
the prediction, and (when `save`) hand the record to `save_func`. -/
def runTestLoop (c : Classifier) (save : Bool) :
    List (Features × List ClassKey) →
    Except TestError (List String × List ResultRecord)
  | [] => .ok ([], [])
  | (features, _) :: rest =>
      match dictGet features "priority" with
      | none => .error .priorityAbsent
      | some pri =>
          match classify c features with
          | .error e => .error (.classifyFailed e)
          | .ok starclass_results =>
              match pyMax starclass_results with
              | none => .error .maxOfEmpty
              | some (k, _) =>
                  match runTestLoop c save rest with
                  | .error e => .error e
                  | .ok (ys, recs) =>
                      .ok (ClassKey.value k :: ys,
                        (if save then [recordOf c pri starclass_results] else [])
                          ++ recs)

/-- `lbl[0].value` for every ground-truth tuple (line 219); `none` models the
`IndexError` on an empty tuple. -/
def firstLabelValues : List (List ClassKey) → Option (List String)
  | [] => some []
  | [] :: _ => none
  | (k :: _) :: rest => (firstLabelValues rest).map (fun l => ClassKey.value k :: l)

/-- sklearn `accuracy_score(y_true, y_pred)` on equal-length label vectors:
the fraction of positions where the two agree. -/
def accuracy_score (y_true y_pred : List String) : ℚ :=
  (((y_true.zip y_pred).countP (fun p => p.1 = p.2) : ℤ) : ℚ) / (y_true.length : ℚ)

/-- sklearn `confusion_matrix(y_true, y_pred, labels)`: entry (i, j) counts the
samples with true label `labels[i]` and predicted label `labels[j]`; samples
whose labels fall outside `labels` are ignored. -/
def confusion_matrix (y_true y_pred : List String) (labels : List String) :
    List (List Nat) :=
  labels.map (fun t => labels.map (fun p =>
    (y_true.zip y_pred).countP (fun q => q.1 = t ∧ q.2 = p)))

/-- The deterministic diagnostic-artifact file name of line 232. -/
def artifactName (tsetKey : String) (level : Level) (ckey : String) : String :=
  "confusion_matrix_" ++ tsetKey ++ "_"
    ++ (match level with | .L1 => "L1" | .L2 => "L2") ++ "_" ++ ckey ++ ".png"

/-- Everything a `test` run produces: the predictions, the records handed to
`save_func` in order, and (when evaluation ran) the accuracy, the confusion
matrix, and the saved diagnostic artifact's name. -/
structure TestOutput where
  y_pred : List String
  saved : List ResultRecord
  accuracy : Option ℚ
  confmatrix : Option (List (List Nat))
  artifact : Option String
deriving DecidableEq

/-- `test` (lines 172-233).  A non-positive test fraction is an explicit no-op
(lines 187-189); otherwise the split is processed one star at a time, the
ground truths are collapsed to their first label's value, and accuracy, the
confusion matrix over the full base-taxonomy value space, and the diagnostic
artifact are produced. -/
def test (c : Classifier) (tset : TSet) (save : Bool) :
    Except TestError TestOutput :=
  if tset.testfraction ≤ 0 then
    .ok ⟨[], [], none, none, none⟩
  else
    match runTestLoop c save (tset.features_test.zip (tset.labels_test c.level)) with
    | .error e => .error e
    | .ok (y_pred, saved) =>
        match firstLabelValues (tset.labels_test c.level) with
        | none => .error .labelIndex
        | some labels_first =>
            if labels_first.length = y_pred.length then
              .ok ⟨y_pred, saved,
                some (accuracy_score labels_first y_pred),
                some (confusion_matrix labels_first y_pred all_classes),
                some (artifactName tset.key c.level c.classifier_key)⟩
            else
              .error .lengthMismatch

/-- The loop body of `parse_labels` (lines 377-396): a multi-label tuple is
resolved through the fixed elif chain over the six distinguished L1 classes;
otherwise (or when none of the six is present) the first listed label's value
is used; `none` models `IndexError` on an empty tuple. -/
def resolveLabel (lbl : List ClassKey) : Option String :=
  if 1 < lbl.length then
    if lbl.contains (ClassKey.l1 StellarClasses.ECLIPSE) then
      some StellarClasses.ECLIPSE.value
    else if lbl.contains (ClassKey.l1 StellarClasses.RRLYR_CEPHEID) then
      some StellarClasses.RRLYR_CEPHEID.value
    else if lbl.contains (ClassKey.l1 StellarClasses.CONTACT_ROT) then
      some StellarClasses.CONTACT_ROT.value
    else if lbl.contains (ClassKey.l1 StellarClasses.DSCT_BCEP) then
      some StellarClasses.DSCT_BCEP.value
    else if lbl.contains (ClassKey.l1 StellarClasses.GDOR_SPB) then
      some StellarClasses.GDOR_SPB.value
    else if lbl.contains (ClassKey.l1 StellarClasses.SOLARLIKE) then
      some StellarClasses.SOLARLIKE.value
    else
      lbl.head?.map ClassKey.value
  else
    lbl.head?.map ClassKey.value

/-- `parse_labels` (lines 369-397): resolve every ground-truth tuple to a
single label value. -/
def parse_labels (labels : List (List ClassKey)) : Option (List String) :=
  labels.mapM resolveLabel

/-- The fixed priority order of §4.3 of the spec, written as a list:
eclipsing, RR Lyrae/Cepheid, contact/rotational, delta-Scuti/beta-Cephei,
gamma-Dor/SPB, solar-like. -/
def priorityOrder : List StellarClasses :=
  [.ECLIPSE, .RRLYR_CEPHEID, .CONTACT_ROT, .DSCT_BCEP, .GDOR_SPB, .SOLARLIKE]

/-- Label resolution as the spec words it: a multi-label entry takes the value
of the first class of `priorityOrder` present in it; if none of the six is
present, or the entry has at most one label, the first listed label's value is
used unchanged. -/
def resolveLabelSpec (lbl : List ClassKey) : Option String :=
  if 1 < lbl.length then
    match priorityOrder.find? (fun c => lbl.contains (ClassKey.l1 c)) with
    | some c => some c.value
    | none => lbl.head?.map ClassKey.value
  else
    lbl.head?.map ClassKey.value

/-- The optional task scalar fields that are present, as key/value bindings in
the fixed inspection order of line 331. -/
def optFields (task : Task) : Features :=
  (match task.tmag with | some v => [("tmag", FeatVal.num v)] | none => []) ++
  (match task.variance with | some v => [("variance", FeatVal.num v)] | none => []) ++
  (match task.rms_hour with | some v => [("rms_hour", FeatVal.num v)] | none => []) ++
  (match task.ptp with | some v => [("ptp", FeatVal.num v)] | none => []) ++
  (match task.other_classifiers with
    | some v => [("other_classifiers", FeatVal.str v)] | none => [])

/-- A concrete environment: trivial parsing and feature collaborators, and an
empty feature cache. -/
def envW : Env :=
  ⟨fun s => ⟨s, "text"⟩, fun s => ⟨s, "fits"⟩, fun l => l, fun l => ⟨l⟩,
   fun _ => [], fun _ => [], fun _ => none⟩

/-- A concrete non-meta classifier with no cache and an empty raw result. -/
def cBase : Classifier := ⟨"base", .L1, none, fun _ => []⟩

/-- A concrete task with no optional scalar fields. -/
def taskW : Task := ⟨1, 42, none, none, none, none, none⟩

/-- A concrete variant whose raw result is a valid two-class mapping. -/
def cOne : Classifier :=
  ⟨"base", .L1, none,
   fun _ => [(ClassKey.l1 .ECLIPSE, 1), (ClassKey.l1 .SOLARLIKE, 0)]⟩

/-- A concrete variant returning a key foreign to its active (L1) taxonomy. -/
def cOneBadKey : Classifier :=
  ⟨"rfgc", .L1, none, fun _ => [(ClassKey.l2 .REFINED_A, 1)]⟩

/-- A concrete variant returning a probability above 1. -/
def cOneBadVal : Classifier :=
  ⟨"xgb", .L1, none, fun _ => [(ClassKey.l1 .ECLIPSE, 2)]⟩

/-- A concrete training set with a zero test fraction. -/
def tsetZero : TSet := ⟨"tsetA", 0, [], fun _ => [], []⟩

/-- A concrete variant that always answers a tie between two L1 classes. -/
def cFive : Classifier :=
  ⟨"base", .L1, none,
   fun _ => [(ClassKey.l1 .ECLIPSE, 1), (ClassKey.l1 .SOLARLIKE, 1)]⟩

/-- A one-entry test feature bundle. -/
def fFive : Features := [("priority", FeatVal.int 1)]

/-- A concrete variant predicting ECLIPSE with probability one. -/
def cSix : Classifier :=
  ⟨"base", .L1, none, fun _ => [(ClassKey.l1 .ECLIPSE, 1)]⟩

/-- A one-star training set with test fraction one. -/
def tsetSix : TSet :=
  ⟨"tsetB", 1, [[("priority", FeatVal.int 17)]],
   fun _ => [[ClassKey.l1 .ECLIPSE]], [17]⟩

/-- The output of the concrete `test` run on `cSix` / `tsetSix`. -/
def outSix : TestOutput :=
  match test cSix tsetSix true with
  | .ok o => o
  | .error _ => ⟨[], [], none, none, none⟩

/-- A stub variant that always predicts ECLIPSE with probability 1 and every
other base class with probability 0. -/
def cFour : Classifier :=
  ⟨"base", .L1, none, fun _ =>
    [(ClassKey.l1 .ECLIPSE, 1), (ClassKey.l1 .RRLYR_CEPHEID, 0), (ClassKey.l1 .CONTACT_ROT, 0),
     (ClassKey.l1 .DSCT_BCEP, 0), (ClassKey.l1 .GDOR_SPB, 0), (ClassKey.l1 .SOLARLIKE, 0),
     (ClassKey.l1 .APERIODIC, 0), (ClassKey.l1 .CONSTANT, 0)]⟩

/-- Three synthetic test tasks with ground-truth labels [A, B, A] where A is
ECLIPSE and B is SOLARLIKE. -/
def tsetFour : TSet :=
  ⟨"synthetic", 1,
   [[("priority", FeatVal.int 1)], [("priority", FeatVal.int 2)],
    [("priority", FeatVal.int 3)]],
   fun _ => [[ClassKey.l1 .ECLIPSE], [ClassKey.l1 .SOLARLIKE], [ClassKey.l1 .ECLIPSE]],
   [1, 2, 3]⟩

/-- The output of the concrete `test` run on `cFour` / `tsetFour`. -/
def outFour : TestOutput :=
  match test cFour tsetFour false with
  | .ok o => o
  | .error _ => ⟨[], [], none, none, none⟩

/-- The first ground-truth label values of `tsetFour`. -/
def firstsFour : List String := ["eclipse", "solar-like", "eclipse"]

/-- A concrete meta classifier with a configured cache directory. -/
def cMeta : Classifier := ⟨"meta", .L1, some "cachedir", fun _ => []⟩

/-- A concrete task carrying some of the optional scalar fields. -/
def taskMeta : Task := ⟨3, 99, some 10, none, some 2, none, some "tbl"⟩

/-- A concrete non-meta classifier with a configured cache directory. -/
def cNine : Classifier := ⟨"base", .L1, some "cachedir", fun _ => []⟩

/-- A concrete task keyed by priority 1. -/
def taskNine : Task := ⟨1, 7, none, none, none, none, none⟩

/-- An environment whose cache holds an EMPTY feature bundle for priority 1:
the cache file exists but unpickles to a falsy dict. -/
def envNine : Env :=
  { envW with cache := fun s =>
      if s = features_file_name "cachedir" 1 then some [] else none }

/-- An environment whose cache holds a nonempty bundle for priority 2. -/
def envHit : Env :=
  { envW with cache := fun s =>
      if s = features_file_name "cachedir" 2 then some [("x", FeatVal.num 5)]
      else none }

/-- A concrete task keyed by priority 2. -/
def taskHit : Task := ⟨2, 8, none, none, none, none, none⟩

/-- The validation loop accepts exactly the mappings whose keys are all in the
active enum and whose values all lie in [0,1]. -/
theorem checkRes_ok_iff (lvl : Level) (l : List (ClassKey × ℚ)) :
    checkRes lvl l = .ok () ↔
      ∀ p ∈ l, memberOfLevel lvl p.1 = true ∧ 0 ≤ p.2 ∧ p.2 ≤ 1 := by
  induction l with
  | nil => simp [checkRes]
  | cons p rest ih =>
    obtain ⟨key, value⟩ := p
    rw [checkRes]
    split_ifs with hk hv
    · refine iff_of_false (by simp) (fun h => ?_)
      have := (h (key, value) (List.mem_cons_self _ _)).1
      rw [hk] at this
      cases this
    · refine iff_of_false (by simp) (fun h => ?_)
      have h2 := (h (key, value) (List.mem_cons_self _ _)).2
      rcases hv with hv | hv
      · exact absurd h2.1 (not_le.mpr hv)
      · exact absurd h2.2 (not_le.mpr hv)
    · rw [ih]
      push_neg at hv
      constructor
      · intro h q hq
        rcases List.mem_cons.mp hq with hq | hq
        · subst hq
          exact ⟨by simpa using hk, le_of_not_lt (by simpa using hv.1),
            by simpa using hv.2⟩
        · exact h q hq
      · intro h q hq
        exact h q (List.mem_cons_of_mem _ hq)

/-- When the validation loop fails with `UnknownClass`, the offending key is a
key of the mapping and is foreign to the active enum. -/
theorem checkRes_error_unknown (lvl : Level) (key : ClassKey) :
    ∀ l : List (ClassKey × ℚ),
      checkRes lvl l = .error (.UnknownClass key) →
      memberOfLevel lvl key = false ∧ ∃ v, (key, v) ∈ l
  | [] => by simp [checkRes]
  | (k, v) :: rest => by
    intro h
    rw [checkRes] at h
    split_ifs at h with hk hv
    · injection h with h1
      injection h1 with h2
      subst h2
      exact ⟨hk, v, List.mem_cons_self _ _⟩
    · cases h
    · obtain ⟨hm, w, hw⟩ := checkRes_error_unknown lvl key rest h
      exact ⟨hm, w, List.mem_cons_of_mem _ hw⟩

/-- When the validation loop fails with `InvalidProbability`, the offending
value is a value of the mapping and lies outside [0,1]. -/
theorem checkRes_error_prob (lvl : Level) (v : ℚ) :
    ∀ l : List (ClassKey × ℚ),
      checkRes lvl l = .error (.InvalidProbability v) →
      (v < 0 ∨ 1 < v) ∧ ∃ key, (key, v) ∈ l
  | [] => by simp [checkRes]
  | (k, w) :: rest => by
    intro h
    rw [checkRes] at h
    split_ifs at h with hk hv
    · cases h
    · injection h with h1
      injection h1 with h2
      subst h2
      exact ⟨hv, k, List.mem_cons_self _ _⟩
    · obtain ⟨hm, key, hkey⟩ := checkRes_error_prob lvl v rest h
      exact ⟨hm, key, List.mem_cons_of_mem _ hkey⟩

/-- If every value is in range but some key is foreign, the loop fails with an
`UnknownClass` error. -/
theorem checkRes_unknown_of_bad_key (lvl : Level) :
    ∀ l : List (ClassKey × ℚ),
      (∀ p ∈ l, 0 ≤ p.2 ∧ p.2 ≤ 1) →
      (∃ p ∈ l, memberOfLevel lvl p.1 = false) →
      ∃ key, checkRes lvl l = .error (.UnknownClass key) ∧
        memberOfLevel lvl key = false
  | [] => by simp
  | (k, v) :: rest => by
    intro hvals hbad
    rw [checkRes]
    split_ifs with hk hv
    · exact ⟨k, rfl, hk⟩
    · have h2 := hvals (k, v) (List.mem_cons_self _ _)
      rcases hv with hv | hv
      · exact absurd h2.1 (not_le.mpr hv)
      · exact absurd h2.2 (not_le.mpr hv)
    · obtain ⟨p, hp, hpbad⟩ := hbad
      rcases List.mem_cons.mp hp with hp | hp
      · subst hp
        rw [hpbad] at hk
        exact absurd rfl hk
      · exact checkRes_unknown_of_bad_key lvl rest
          (fun q hq => hvals q (List.mem_cons_of_mem _ hq)) ⟨p, hp, hpbad⟩

/-- If every key is in the active enum but some value is out of range, the
loop fails with an `InvalidProbability` error. -/
theorem checkRes_prob_of_bad_value (lvl : Level) :
    ∀ l : List (ClassKey × ℚ),
      (∀ p ∈ l, memberOfLevel lvl p.1 = true) →
      (∃ p ∈ l, p.2 < 0 ∨ 1 < p.2) →
      ∃ v, checkRes lvl l = .error (.InvalidProbability v) ∧ (v < 0 ∨ 1 < v)
  | [] => by simp
  | (k, v) :: rest => by
    intro hkeys hbad
    rw [checkRes]
    split_ifs with hk hv
    · have := hkeys (k, v) (List.mem_cons_self _ _)
      rw [hk] at this
      cases this
    · exact ⟨v, rfl, hv⟩
    · push_neg at hv
      obtain ⟨p, hp, hpbad⟩ := hbad
      rcases List.mem_cons.mp hp with hp | hp
      · subst hp
        rcases hpbad with hb | hb
        · exact absurd hb (by simpa using hv.1)
        · exact absurd hb (by simpa using hv.2)
      · exact checkRes_prob_of_bad_value lvl rest
          (fun q hq => hkeys q (List.mem_cons_of_mem _ hq)) ⟨p, hp, hpbad⟩

/-- C1: `classify` invokes the variant's `do_classify` and returns the
resulting mapping unchanged exactly when every key of the mapping belongs to
the active level's taxonomy and every value lies in [0,1]; an `UnknownClass`
error always names a foreign key of the mapping, an `InvalidProbability` error
always names an out-of-range value of the mapping, a mapping with in-range
values and a foreign key fails with `UnknownClass`, and a mapping with valid
keys and an out-of-range value fails with `InvalidProbability`. -/
theorem classify_validates_and_returns_unchanged
    (c : Classifier) (features : Features) :
    (classify c features = Except.ok (c.do_classify features) ↔
       ∀ p ∈ c.do_classify features,
         memberOfLevel c.level p.1 = true ∧ 0 ≤ p.2 ∧ p.2 ≤ 1)
    ∧ (∀ res, classify c features = Except.ok res → res = c.do_classify features)
    ∧ (∀ key, classify c features = Except.error (ClassifyError.UnknownClass key) →
         memberOfLevel c.level key = false ∧
           ∃ v, (key, v) ∈ c.do_classify features)
    ∧ (∀ v,
         classify c features = Except.error (ClassifyError.InvalidProbability v) →
         (v < 0 ∨ 1 < v) ∧ ∃ key, (key, v) ∈ c.do_classify features)
    ∧ ((∀ p ∈ c.do_classify features, 0 ≤ p.2 ∧ p.2 ≤ 1) →
       (∃ p ∈ c.do_classify features, memberOfLevel c.level p.1 = false) →
       ∃ key, classify c features = Except.error (ClassifyError.UnknownClass key) ∧
         memberOfLevel c.level key = false)
    ∧ ((∀ p ∈ c.do_classify features, memberOfLevel c.level p.1 = true) →
       (∃ p ∈ c.do_classify features, p.2 < 0 ∨ 1 < p.2) →
       ∃ v,
         classify c features = Except.error (ClassifyError.InvalidProbability v) ∧
         (v < 0 ∨ 1 < v)) := by
  cases hc : checkRes c.level (c.do_classify features) with
  | ok u =>
    cases u
    have hcl : classify c features = Except.ok (c.do_classify features) := by
      simp [classify, hc]
    have hall := (checkRes_ok_iff c.level (c.do_classify features)).mp hc
    refine ⟨iff_of_true hcl hall, ?_, ?_, ?_, ?_, ?_⟩
    · intro res h
      rw [hcl] at h
      exact (Except.ok.inj h).symm
    · intro key h
      rw [hcl] at h
      cases h
    · intro v h
      rw [hcl] at h
      cases h
    · intro _ hbad
      obtain ⟨p, hp, hpbad⟩ := hbad
      have := (hall p hp).1
      rw [hpbad] at this
      cases this
    · intro _ hbad
      obtain ⟨p, hp, hpbad⟩ := hbad
      have h2 := (hall p hp).2
      rcases hpbad with hb | hb
      · exact absurd h2.1 (not_le.mpr hb)
      · exact absurd h2.2 (not_le.mpr hb)
  | error e =>
    have hcl : classify c features = Except.error e := by
      simp [classify, hc]
    refine ⟨iff_of_false (by simp [hcl]) (fun hall => ?_), ?_, ?_, ?_, ?_, ?_⟩
    · have := (checkRes_ok_iff c.level (c.do_classify features)).mpr hall
      rw [hc] at this
      cases this
    · intro res h
      rw [hcl] at h
      cases h
    · intro key h
      rw [hcl] at h
      injection h with he
      subst he
      exact checkRes_error_unknown c.level key _ hc
    · intro v h
      rw [hcl] at h
      injection h with he
      subst he
      exact checkRes_error_prob c.level v _ hc
    · intro hvals hbad
      obtain ⟨key, hk, hkey⟩ :=
        checkRes_unknown_of_bad_key c.level (c.do_classify features) hvals hbad
      exact ⟨key, by simp [classify, hk], hkey⟩
    · intro hkeys hbad
      obtain ⟨v, hv, hvr⟩ :=
        checkRes_prob_of_bad_value c.level (c.do_classify features) hkeys hbad
      exact ⟨v, by simp [classify, hv], hvr⟩

/-- Witness for C1: a valid mapping is returned unchanged, a foreign (L2) key
under the L1 taxonomy fails with `UnknownClass`, and a probability of 2 fails
with `InvalidProbability`. -/
theorem classify_validates_witness :
    classify cOne [] = Except.ok (cOne.do_classify []) ∧
    (∃ key, classify cOneBadKey [] =
        Except.error (ClassifyError.UnknownClass key) ∧
      memberOfLevel cOneBadKey.level key = false) ∧
    (∃ v, classify cOneBadVal [] =
        Except.error (ClassifyError.InvalidProbability v) ∧ (v < 0 ∨ 1 < v)) :=
  ⟨(classify_validates_and_returns_unchanged cOne []).1.mpr (by decide),
   (classify_validates_and_returns_unchanged cOneBadKey []).2.2.2.2.1
     (by decide) ⟨(ClassKey.l2 .REFINED_A, 1), by decide, by decide⟩,
   (classify_validates_and_returns_unchanged cOneBadVal []).2.2.2.2.2
     (by decide) ⟨(ClassKey.l1 .ECLIPSE, 2), by decide, by decide⟩⟩

/-- The elif chain of `parse_labels` resolves one label tuple exactly as the
spec-side priority-order resolution does. -/
theorem resolveLabel_eq_spec (lbl : List ClassKey) :
    resolveLabel lbl = resolveLabelSpec lbl := by
  rw [resolveLabel, resolveLabelSpec]
  by_cases h : 1 < lbl.length
  · simp only [h, if_true]
    by_cases h1 : ClassKey.l1 StellarClasses.ECLIPSE ∈ lbl
    · simp [priorityOrder, List.find?_cons, h1]
    · by_cases h2 : ClassKey.l1 StellarClasses.RRLYR_CEPHEID ∈ lbl
      · simp [priorityOrder, List.find?_cons, h1, h2]
      · by_cases h3 : ClassKey.l1 StellarClasses.CONTACT_ROT ∈ lbl
        · simp [priorityOrder, List.find?_cons, h1, h2, h3]
        · by_cases h4 : ClassKey.l1 StellarClasses.DSCT_BCEP ∈ lbl
          · simp [priorityOrder, List.find?_cons, h1, h2, h3, h4]
          · by_cases h5 : ClassKey.l1 StellarClasses.GDOR_SPB ∈ lbl
            · simp [priorityOrder, List.find?_cons, h1, h2, h3, h4, h5]
            · by_cases h6 : ClassKey.l1 StellarClasses.SOLARLIKE ∈ lbl
              · simp [priorityOrder, List.find?_cons, h1, h2, h3, h4, h5, h6]
              · simp [priorityOrder, List.find?_cons, h1, h2, h3, h4, h5, h6]
  · simp [h]

/-- C2: `parse_labels` resolves every ground-truth label tuple by the fixed
priority order eclipsing > RR Lyrae/Cepheid > contact/rotational >
delta-Scuti/beta-Cephei > gamma-Dor/SPB > solar-like when the tuple is
multi-labelled and one of the six is present; otherwise (a single label, or
none of the six present) the first listed label's value is used unchanged. -/
theorem parse_labels_priority_resolution (labels : List (List ClassKey)) :
    parse_labels labels = labels.mapM resolveLabelSpec := by
  rw [parse_labels]
  induction labels with
  | nil => rfl
  | cons l rest ih =>
    rw [List.mapM_cons, List.mapM_cons, resolveLabel_eq_spec, ih]

/-- C3: with a non-positive test fraction, `test` is an explicit no-op: it
returns immediately with no predictions, no saved records, no accuracy, no
confusion matrix, and no diagnostic artifact. -/
theorem test_zero_testfraction_noop (c : Classifier) (tset : TSet) (save : Bool)
    (h : tset.testfraction ≤ 0) :
    test c tset save = .ok ⟨[], [], none, none, none⟩ := by
  rw [test, if_pos h]

/-- Witness for C3 at a concrete zero-test-fraction training set. -/
theorem test_zero_testfraction_noop_witness :
    tsetZero.testfraction ≤ 0 ∧
    test cBase tsetZero true = .ok ⟨[], [], none, none, none⟩ :=
  ⟨by decide, test_zero_testfraction_noop cBase tsetZero true (by decide)⟩

/-- Characterization of the `max`-scan fold: the result is the accumulator
when nothing beats it strictly, and otherwise the first element that attains
the running maximum. -/
theorem pyMax_foldl_char :
    ∀ (l : List (ClassKey × ℚ)) (p : ClassKey × ℚ),
      (l.foldl (fun acc q => if q.2 > acc.2 then q else acc) p = p ∧
         ∀ q ∈ l, q.2 ≤ p.2)
      ∨ (∃ r l₁ l₂, l.foldl (fun acc q => if q.2 > acc.2 then q else acc) p = r ∧
           l = l₁ ++ r :: l₂ ∧ p.2 < r.2 ∧ (∀ q ∈ l₁, q.2 < r.2) ∧
           ∀ q ∈ l₂, q.2 ≤ r.2)
  | [], p => by simp
  | q :: t, p => by
    rw [List.foldl_cons]
    by_cases hq : q.2 > p.2
    · rw [if_pos hq]
      rcases pyMax_foldl_char t q with ⟨hres, hall⟩ | ⟨r, l₁, l₂, hres, hdec, hlt, hl₁, hl₂⟩
      · right
        exact ⟨q, [], t, hres, by simp, hq, by simp, hall⟩
      · right
        refine ⟨r, q :: l₁, l₂, hres, by simp [hdec], lt_trans hq hlt, ?_, hl₂⟩
        intro x hx
        rcases List.mem_cons.mp hx with hx | hx
        · subst hx; exact hlt
        · exact hl₁ x hx
    · rw [if_neg hq]
      rcases pyMax_foldl_char t p with ⟨hres, hall⟩ | ⟨r, l₁, l₂, hres, hdec, hlt, hl₁, hl₂⟩
      · left
        refine ⟨hres, fun x hx => ?_⟩
        rcases List.mem_cons.mp hx with hx | hx
        · subst hx; exact le_of_not_lt hq
        · exact hall x hx
      · right
        refine ⟨r, q :: l₁, l₂, hres, by simp [hdec], hlt, ?_, hl₂⟩
        intro x hx
        rcases List.mem_cons.mp hx with hx | hx
        · subst hx; exact lt_of_le_of_lt (le_of_not_lt hq) hlt
        · exact hl₁ x hx

/-- C5: the predicted class selected by the test harness is the argmax over
the probability values with ties broken by the first entry in the mapping's
iteration order (`pyMax` returns an entry attaining the maximum such that
everything strictly before it in the mapping is strictly smaller), and the
recorded prediction in the harness loop is that class's stable value. -/
theorem test_prediction_argmax_first_tie :
    (∀ l : List (ClassKey × ℚ), l ≠ [] →
       ∃ r l₁ l₂, pyMax l = some r ∧ l = l₁ ++ r :: l₂ ∧
         (∀ q ∈ l, q.2 ≤ r.2) ∧ (∀ q ∈ l₁, q.2 < r.2))
    ∧ (∀ (c : Classifier) (save : Bool) (f : Features) (lbl : List ClassKey)
         (rest : List (Features × List ClassKey)) (ys : List String)
         (recs : List ResultRecord) (res : List (ClassKey × ℚ))
         (k : ClassKey) (v : ℚ),
         runTestLoop c save ((f, lbl) :: rest) = .ok (ys, recs) →
         classify c f = .ok res → pyMax res = some (k, v) →
         ys.head? = some (ClassKey.value k)) := by
  constructor
  · intro l hl
    match l, hl with
    | p :: t, _ =>
      rw [pyMax]
      rcases pyMax_foldl_char t p with ⟨hres, hall⟩ | ⟨r, l₁, l₂, hres, hdec, hlt, hl₁, hl₂⟩
      · refine ⟨p, [], t, by rw [hres], by simp, fun q hq => ?_, by simp⟩
        rcases List.mem_cons.mp hq with hq | hq
        · subst hq; exact le_refl _
        · exact hall q hq
      · refine ⟨r, p :: l₁, l₂, by rw [hres], by simp [hdec], fun q hq => ?_, ?_⟩
        · rcases List.mem_cons.mp hq with hq | hq
          · subst hq; exact le_of_lt hlt
          · rw [hdec] at hq
            rcases List.mem_append.mp hq with hq | hq
            · exact le_of_lt (hl₁ q hq)
            · rcases List.mem_cons.mp hq with hq | hq
              · subst hq; exact le_refl _
              · exact hl₂ q hq
        · intro q hq
          rcases List.mem_cons.mp hq with hq | hq
          · subst hq; exact hlt
          · exact hl₁ q hq
  · intro c save f lbl rest ys recs res k v hrun hcl hmax
    cases hpri : dictGet f "priority" with
    | none => simp [runTestLoop, hpri] at hrun
    | some pri =>
      rw [runTestLoop] at hrun
      simp only [hpri, hcl, hmax] at hrun
      cases hrest : runTestLoop c save rest with
      | error e => simp only [hrest] at hrun; cases hrun
      | ok pr =>
        obtain ⟨ys', recs'⟩ := pr
        simp only [hrest] at hrun
        rw [Except.ok.injEq, Prod.mk.injEq] at hrun
        rw [← hrun.1]
        rfl

/-- Witness for C5: a concrete two-way tie resolves to the first entry, and a
concrete harness run records that entry's stable value. -/
theorem test_prediction_argmax_first_tie_witness :
    (∃ r l₁ l₂,
       pyMax [(ClassKey.l1 .ECLIPSE, 1), (ClassKey.l1 .SOLARLIKE, 1)] = some r ∧
       [(ClassKey.l1 .ECLIPSE, 1), (ClassKey.l1 .SOLARLIKE, 1)] = l₁ ++ r :: l₂ ∧
       (∀ q ∈ [(ClassKey.l1 .ECLIPSE, 1), (ClassKey.l1 .SOLARLIKE, 1)],
          q.2 ≤ r.2) ∧
       ∀ q ∈ l₁, q.2 < r.2)
    ∧ (["eclipse"] : List String).head? =
        some (ClassKey.value (ClassKey.l1 .ECLIPSE)) :=
  ⟨test_prediction_argmax_first_tie.1 _ (by decide),
   test_prediction_argmax_first_tie.2 cFive true fFive [] [] ["eclipse"]
     [recordOf cFive (FeatVal.int 1)
        [(ClassKey.l1 .ECLIPSE, 1), (ClassKey.l1 .SOLARLIKE, 1)]]
     [(ClassKey.l1 .ECLIPSE, 1), (ClassKey.l1 .SOLARLIKE, 1)]
     (ClassKey.l1 .ECLIPSE) 1 rfl rfl rfl⟩

/-- Every record collected by the harness loop is exactly the record built on
lines 198-205 for some processed feature bundle: the bundle's `priority`, the
variant's key, the OK status, and the validated mapping. -/
theorem runTestLoop_saved (c : Classifier) (save : Bool) :
    ∀ (pairs : List (Features × List ClassKey)) (ys : List String)
      (recs : List ResultRecord),
      runTestLoop c save pairs = .ok (ys, recs) →
      ∀ rec ∈ recs, ∃ f lbl pri res,
        (f, lbl) ∈ pairs ∧ dictGet f "priority" = some pri ∧
        classify c f = .ok res ∧ rec = recordOf c pri res
  | [], ys, recs => by
    intro h rec hrec
    rw [runTestLoop] at h
    rw [Except.ok.injEq, Prod.mk.injEq] at h
    rw [← h.2] at hrec
    cases hrec
  | (f, lbl) :: rest, ys, recs => by
    intro h rec hrec
    rw [runTestLoop] at h
    cases hpri : dictGet f "priority" with
    | none => simp only [hpri] at h; cases h
    | some pri =>
      cases hcl : classify c f with
      | error e => simp only [hpri, hcl] at h; cases h
      | ok res =>
        cases hmax : pyMax res with
        | none => simp only [hpri, hcl, hmax] at h; cases h
        | some kv =>
          obtain ⟨k, v⟩ := kv
          cases hrest : runTestLoop c save rest with
          | error e => simp only [hpri, hcl, hmax, hrest] at h; cases h
          | ok pr =>
            obtain ⟨ys', recs'⟩ := pr
            simp only [hpri, hcl, hmax, hrest] at h
            rw [Except.ok.injEq, Prod.mk.injEq] at h
            rw [← h.2] at hrec
            rcases List.mem_append.mp hrec with hrec | hrec
            · cases save with
              | false => cases hrec
              | true =>
                rw [if_pos rfl] at hrec
                rcases List.mem_cons.mp hrec with hrec | hrec
                · exact ⟨f, lbl, pri, res, List.mem_cons_self _ _, hpri, hcl, hrec⟩
                · cases hrec
            · obtain ⟨f2, lbl2, pri2, res2, hmem, h1, h2, h3⟩ :=
                runTestLoop_saved c save rest ys' recs' hrest rec hrec
              exact ⟨f2, lbl2, pri2, res2, List.mem_cons_of_mem _ hmem, h1, h2, h3⟩

/-- C6 (amended): every result record handed to the injected `save_func` by
the test harness has exactly the fields `priority`, `classifier`, `status`,
`starclass_results` in that order, where `priority` is copied from the feature
bundle, `classifier` holds the variant's fixed short identifier key, `status`
is the OK status, and `starclass_results` is the validated mapping returned by
the classification contract. -/
theorem result_record_fields (c : Classifier) (tset : TSet) (save : Bool)
    (out : TestOutput) (hok : test c tset save = .ok out) :
    ∀ rec ∈ out.saved, ∃ f pri res,
      f ∈ tset.features_test ∧
      dictGet f "priority" = some pri ∧
      classify c f = .ok res ∧
      rec = [("priority", RecValue.feat pri),
             ("classifier", RecValue.str c.classifier_key),
             ("status", RecValue.status STATUS.OK),
             ("starclass_results", RecValue.results res)] ∧
      rec.map Prod.fst = ["priority", "classifier", "status", "starclass_results"] := by
  intro rec hrec
  rw [test] at hok
  by_cases hfrac : tset.testfraction ≤ 0
  · rw [if_pos hfrac] at hok
    rw [Except.ok.injEq] at hok
    rw [← hok] at hrec
    cases hrec
  · rw [if_neg hfrac] at hok
    cases hrun : runTestLoop c save (tset.features_test.zip (tset.labels_test c.level)) with
    | error e => simp only [hrun] at hok; cases hok
    | ok pr =>
      obtain ⟨y_pred, saved⟩ := pr
      simp only [hrun] at hok
      cases hfl : firstLabelValues (tset.labels_test c.level) with
      | none => simp only [hfl] at hok; cases hok
      | some labels_first =>
        simp only [hfl] at hok
        by_cases hlen : labels_first.length = y_pred.length
        · rw [if_pos hlen, Except.ok.injEq] at hok
          have hsaved : out.saved = saved := by rw [← hok]
          rw [hsaved] at hrec
          obtain ⟨f, lbl, pri, res, hmem, h1, h2, h3⟩ :=
            runTestLoop_saved c save _ y_pred saved hrun rec hrec
          exact ⟨f, pri, res, (List.of_mem_zip hmem).1, h1, h2,
            by rw [h3]; rfl, by rw [h3]; rfl⟩
        · rw [if_neg hlen] at hok; cases hok

/-- Witness for C6 (amended): the concrete harness run on `cSix`/`tsetSix`
saves exactly one record, and its field list is
priority, classifier, status, starclass_results. -/
theorem result_record_fields_witness :
    outSix.saved =
      [recordOf cSix (FeatVal.int 17) [(ClassKey.l1 .ECLIPSE, 1)]] ∧
    (recordOf cSix (FeatVal.int 17) [(ClassKey.l1 .ECLIPSE, 1)]).map Prod.fst =
      ["priority", "classifier", "status", "starclass_results"] := by
  have h := result_record_fields cSix tsetSix true outSix rfl
  refine ⟨rfl, ?_⟩
  obtain ⟨f, pri, res, _, _, _, _, hfields⟩ :=
    h (recordOf cSix (FeatVal.int 17) [(ClassKey.l1 .ECLIPSE, 1)]) (by decide)
  exact hfields

/-- Counterexample for C6 as stated: the record emitted by a concrete harness
run carries its classifier identity under the field name `classifier`, not
`classifier_key`; no emitted record has a `classifier_key` field. -/
theorem result_record_no_classifier_key_field :
    test cSix tsetSix true = .ok outSix ∧
    outSix.saved.map (fun rec => rec.map Prod.fst) =
      [["priority", "classifier", "status", "starclass_results"]] ∧
    ¬ ("classifier_key" ∈ (outSix.saved.headD []).map Prod.fst) :=
  ⟨rfl, rfl, by decide⟩

/-- C4: whenever the harness runs (positive test fraction) at either level,
the reported accuracy is the fraction of test stars whose predicted label
equals the first ground-truth label's value, and the confusion matrix is
indexed by the full class value space of the base (L1) taxonomy, independent
of the active level. -/
theorem test_accuracy_first_label_base_confusion
    (c : Classifier) (tset : TSet) (save : Bool) (out : TestOutput)
    (firsts : List String)
    (hok : test c tset save = .ok out)
    (hpos : 0 < tset.testfraction)
    (hfl : firstLabelValues (tset.labels_test c.level) = some firsts) :
    out.accuracy = some
      ((((firsts.zip out.y_pred).countP (fun p => p.1 = p.2) : ℤ) : ℚ)
        / (firsts.length : ℚ))
    ∧ out.confmatrix = some
        (all_classes.map (fun t => all_classes.map (fun p =>
          (firsts.zip out.y_pred).countP (fun q => q.1 = t ∧ q.2 = p))))
    ∧ all_classes = allStellarClasses.map StellarClasses.value := by
  rw [test, if_neg (not_le.mpr hpos)] at hok
  cases hrun : runTestLoop c save
      (tset.features_test.zip (tset.labels_test c.level)) with
  | error e => simp only [hrun] at hok; cases hok
  | ok pr =>
    obtain ⟨y_pred, saved⟩ := pr
    simp only [hrun, hfl] at hok
    by_cases hlen : firsts.length = y_pred.length
    · rw [if_pos hlen, Except.ok.injEq] at hok
      refine ⟨?_, ?_, rfl⟩ <;> rw [← hok] <;> rfl
    · rw [if_neg hlen] at hok; cases hok

/-- Witness for C4: the spec's end-to-end scenario — three test stars with
ground truths [A, B, A] and a stub always predicting A: accuracy 2/3 and the
confusion-matrix diagonal entry for A equal to 2. -/
theorem test_accuracy_first_label_base_confusion_witness :
    test cFour tsetFour false = .ok outFour ∧
    outFour.accuracy = some (2/3) ∧
    ((outFour.confmatrix.getD []).headD []).headD 0 = 2 := by
  have h := test_accuracy_first_label_base_confusion cFour tsetFour false
    outFour firstsFour rfl (by decide) rfl
  exact ⟨rfl, h.1.trans (by with_unfolding_all decide),
    by with_unfolding_all decide⟩

/-- Attaching the task fields to an empty bundle yields exactly `priority`,
`starid`, and the present optional fields, in the fixed order. -/
theorem attachTaskFields_nil (task : Task) :
    attachTaskFields [] task =
      [("priority", FeatVal.int task.priority),
       ("starid", FeatVal.int task.starid)] ++ optFields task := by
  obtain ⟨pri, sid, tm, va, rm, pt, oc⟩ := task
  cases tm <;> cases va <;> cases rm <;> cases pt <;> cases oc <;> rfl

/-- C7: for a non-meta classifier, an observation-file path whose suffix is
none of the recognized encodings makes `load_star` fail with the
InvalidFormat error, with no cache lookup, no feature computation, and no
cache write having taken place. -/
theorem load_star_invalid_format (env : Env) (c : Classifier) (task : Task)
    (fname : String)
    (hmeta : ¬ c.classifier_key = "meta")
    (h1 : fname.endsWith ".noisy" = false)
    (h2 : fname.endsWith ".sysnoise" = false)
    (h3 : fname.endsWith ".txt" = false)
    (h4 : fname.endsWith ".clean" = false)
    (h5 : fname.endsWith ".fits" = false)
    (h6 : fname.endsWith ".fits.gz" = false) :
    load_star env c task fname =
      (.error LoadError.InvalidFormat, ⟨false, false, none⟩) := by
  have hlc : loadLightcurve env fname = none := by
    rw [loadLightcurve]
    simp [h1, h2, h3, h4, h5, h6]
  rw [load_star, if_neg hmeta]
  simp only [hlc]

/-- Witness for C7: a `.csv` path under a concrete non-meta classifier. -/
theorem load_star_invalid_format_witness :
    load_star envW cBase taskW "star.csv" =
      (.error LoadError.InvalidFormat, ⟨false, false, none⟩) :=
  load_star_invalid_format envW cBase taskW "star.csv" (by decide)
    (by with_unfolding_all decide) (by with_unfolding_all decide)
    (by with_unfolding_all decide) (by with_unfolding_all decide)
    (by with_unfolding_all decide) (by with_unfolding_all decide)

/-- C8: under the meta classifier key, `load_star` never inspects the
observation file (its result is independent of the path, so no file need
exist and InvalidFormat is never raised) and returns a bundle holding exactly
the task's priority, starid, and the optional scalar fields present on the
task — no lightcurve, power spectrum, or derived features, and no cache
traffic. -/
theorem load_star_meta_bundle (env : Env) (c : Classifier) (task : Task)
    (fname : String) (hmeta : c.classifier_key = "meta") :
    load_star env c task fname =
      (.ok ([("priority", FeatVal.int task.priority),
             ("starid", FeatVal.int task.starid)] ++ optFields task),
       ⟨false, false, none⟩)
    ∧ ∀ other, load_star env c task fname = load_star env c task other := by
  constructor
  · rw [load_star, if_pos hmeta, attachTaskFields_nil]
  · intro other
    rw [load_star, if_pos hmeta, load_star, if_pos hmeta]

/-- Witness for C8: the meta classifier on a task with some optional fields
present, at a path that exists in no recognized encoding. -/
theorem load_star_meta_bundle_witness :
    load_star envW cMeta taskMeta "nofile.xyz" =
      (.ok ([("priority", FeatVal.int 3), ("starid", FeatVal.int 99)]
              ++ optFields taskMeta),
       ⟨false, false, none⟩)
    ∧ load_star envW cMeta taskMeta "nofile.xyz" =
        load_star envW cMeta taskMeta "a.fits" :=
  ⟨(load_star_meta_bundle envW cMeta taskMeta "nofile.xyz" rfl).1,
   (load_star_meta_bundle envW cMeta taskMeta "nofile.xyz" rfl).2 "a.fits"⟩

/-- C9 (amended): with a configured cache and a recognized observation format,
a cache file holding a nonempty bundle is loaded as-is — `calc_features` is
not invoked and nothing is written — while an absent cache file triggers one
computation followed by exactly one cache write of the computed bundle. -/
theorem load_star_cache_discipline (env : Env) (c : Classifier) (task : Task)
    (fname : String) (dir : String) (lc : LightCurve)
    (hmeta : ¬ c.classifier_key = "meta")
    (hdir : c.features_cache = some dir)
    (hlc : loadLightcurve env fname = some lc) :
    (∀ cached, env.cache (features_file_name dir task.priority) = some cached →
       cached ≠ [] →
       load_star env c task fname =
         (.ok (attachTaskFields cached task), ⟨true, false, none⟩))
    ∧ (env.cache (features_file_name dir task.priority) = none →
       load_star env c task fname =
         (.ok (attachTaskFields (calc_features env lc) task),
          ⟨true, true, some (features_file_name dir task.priority,
            attachTaskFields (calc_features env lc) task)⟩)) := by
  constructor
  · intro cached hc hne
    rw [load_star, if_neg hmeta]
    simp only [hlc, hdir, hc]
    rw [if_neg hne]
  · intro hc
    rw [load_star, if_neg hmeta]
    simp only [hlc, hdir, hc]

/-- Witness for C9 (amended): a nonempty cache hit is returned without
recomputation, and a cache miss computes and writes once. -/
theorem load_star_cache_discipline_witness :
    load_star envHit cNine taskHit "obs.txt" =
      (.ok (attachTaskFields [("x", FeatVal.num 5)] taskHit),
       ⟨true, false, none⟩)
    ∧ load_star envW cNine taskNine "obs.txt" =
        (.ok (attachTaskFields (calc_features envW (envW.parseText "obs.txt")) taskNine),
         ⟨true, true, some (features_file_name "cachedir" 1,
           attachTaskFields (calc_features envW (envW.parseText "obs.txt")) taskNine)⟩) :=
  ⟨(load_star_cache_discipline envHit cNine taskHit "obs.txt" "cachedir"
      (envHit.parseText "obs.txt") (by decide) rfl
      (by with_unfolding_all decide)).1
      [("x", FeatVal.num 5)] (by with_unfolding_all decide) (by decide),
   (load_star_cache_discipline envW cNine taskNine "obs.txt" "cachedir"
      (envW.parseText "obs.txt") (by decide) rfl
      (by with_unfolding_all decide)).2 rfl⟩

/-- Counterexample for C9 as stated: a cache file that exists but holds an
empty bundle still triggers recomputation and a cache write, so absence of
the cache file is not the only trigger for recomputation. -/
theorem load_star_cached_empty_recompute_cx :
    envNine.cache (features_file_name "cachedir" 1) = some [] ∧
    (load_star envNine cNine taskNine "obs.txt").2.calcInvoked = true ∧
    (load_star envNine cNine taskNine "obs.txt").2.cacheWrite ≠ none := by
  refine ⟨by with_unfolding_all decide, by with_unfolding_all decide,
    by with_unfolding_all decide⟩

/-- C10: under the meta classifier key, `load_star` performs no cache write,
no feature computation, and no cache lookup at all, even when a cache
directory is configured. -/
theorem load_star_meta_no_cache_write (env : Env) (c : Classifier)
    (task : Task) (fname : String) (hmeta : c.classifier_key = "meta") :
    (load_star env c task fname).2.cacheWrite = none ∧
    (load_star env c task fname).2.calcInvoked = false ∧
    (load_star env c task fname).2.cacheLookup = false := by
  refine ⟨?_, ?_, ?_⟩ <;> rw [load_star, if_pos hmeta]

/-- Witness for C10: the meta classifier with a configured cache directory. -/
theorem load_star_meta_no_cache_write_witness :
    (load_star envNine cMeta taskNine "obs.txt").2.cacheWrite = none ∧
    (load_star envNine cMeta taskNine "obs.txt").2.calcInvoked = false ∧
    (load_star envNine cMeta taskNine "obs.txt").2.cacheLookup = false :=
  load_star_meta_no_cache_write envNine cMeta taskNine "obs.txt" rfl

end Starclass
